import Mathlib

/-!
Verification of the OneSignal-Website-SDK core subsystems against their
natural-language specification: a shallow embedding, in Lean 4, of the
worker lifecycle manager (`ServiceWorkerManager`), the subscription
negotiator (`SubscriptionManager`), the cross-context messenger
(`WorkerMessenger`), and the shared value objects (`Path`, `Subscription`,
`RawPushSubscription`).

JavaScript strings are modelled as Lean `String`; the string operations the
source relies on (`split`, `trim`, `lastIndexOf`, `substring`,
`toLowerCase`, trailing-slash replacement) are implemented structurally on
`String.data` so every definition evaluates by kernel reduction.
JavaScript `undefined`/`null` is modelled with `Option`; thrown exceptions
with `Except`; external side effects (worker registration, platform push
calls, backend API calls, persistence writes, event triggers) are recorded
in an explicit effect trace.
-/

namespace OneSignalSDK

/-! ## JavaScript runtime basics -/

/-- A JavaScript runtime value as it appears in serialization bundles:
a string, a boolean, or `undefined` (the value of an absent object key). -/
inductive JsValue where
  | undefined
  | str (s : String)
  | boolean (b : Bool)
  deriving DecidableEq

/-- A JavaScript object literal used as a serialization bundle:
key/value pairs in insertion order. -/
abbrev JsBundle := List (String × JsValue)

/-- Property read `bundle.key`: the stored value, or `undefined` when the
key is absent. -/
def jsGet (bundle : JsBundle) (key : String) : JsValue :=
  match bundle.find? (fun kv => kv.1 == key) with
  | some kv => kv.2
  | none => JsValue.undefined

/-- JavaScript truthiness of a possibly-`undefined`/`null` string:
falsy exactly when absent or empty. -/
def jsTruthyOptStr : Option String → Bool
  | some s => s ≠ ""
  | none => false

/-- `String.prototype.split` with a single-character separator, on the
character list: always returns a non-empty list of segments. -/
def jsSplitChar (sep : Char) : List Char → List (List Char)
  | [] => [[]]
  | c :: cs =>
    let rest := jsSplitChar sep cs
    if c = sep then [] :: rest
    else
      match rest with
      | [] => [[c]]
      | r :: rs => (c :: r) :: rs

/-- `String.prototype.trim`: strip leading and trailing whitespace. -/
def jsTrim (s : String) : String :=
  ⟨((s.data.dropWhile Char.isWhitespace).reverse.dropWhile Char.isWhitespace).reverse⟩

/-- `String.prototype.toLowerCase` (ASCII, as used on device tokens). -/
def jsToLowerCase (s : String) : String :=
  ⟨s.data.map Char.toLower⟩

/-- `String.prototype.lastIndexOf`: the greatest index at which `needle`
occurs in `hay`, or `none` (JS `-1`) when it never occurs. An empty
needle occurs at every index, so its last index is `hay.length`. -/
def jsLastIndexOfChars (hay needle : List Char) : Option Nat :=
  ((List.range (hay.length + 1)).filter
    (fun i => needle.isPrefixOf (hay.drop i))).getLast?

/-- The regex replacement `replace(/[\\\/]$/, '')`: remove one trailing
slash or backslash, if present. -/
def jsStripTrailingSlash (cs : List Char) : List Char :=
  match cs.getLast? with
  | some c => if c = '/' ∨ c = '\\' then cs.dropLast else cs
  | none => cs

/-! ## src/src/models/Path.ts -/

/-- `Path` (src/src/models/Path.ts): wraps a path string. Its class doc
comment promises "Paths are downcased and spaces are trimmed", but the
constructor only trims. -/
structure Path where
  path : String
  deriving DecidableEq

/-- The `Path` constructor: throws `InvalidArgumentError` on a falsy
(empty) argument, otherwise stores `path.trim()`. The error case is
surfaced as `none`. -/
def Path.ofString (s : String) : Option Path :=
  if s = "" then none else some ⟨jsTrim s⟩

/-- `Path.getFileName`: `this.path.split('\\').pop().split('/').pop()`. -/
def Path.getFileName (p : Path) : String :=
  ⟨(jsSplitChar '/' ((jsSplitChar '\\' p.path.data).getLastD [])).getLastD []⟩

/-- `Path.getFullPath`. -/
def Path.getFullPath (p : Path) : String := p.path

/-- `Path.getPathWithoutFileName`: `substring(0, lastIndexOf(fileName))`
with one trailing slash or backslash removed. -/
def Path.getPathWithoutFileName (p : Path) : String :=
  let fileName := p.getFileName
  let pathWithoutFileName :=
    match jsLastIndexOfChars p.path.data fileName.data with
    | some i => p.path.data.take i
    | none => []
  ⟨jsStripTrailingSlash pathWithoutFileName⟩

/-! ## Subscription model (src/unnamed/part_002, `models/Subscription.ts`) -/

/-- Modelled from the spec: `Uuid` (the spec's DeviceIdentity, "an opaque
backend-assigned identifier ... persisted in local storage") is not under
src/; only its callers are. It wraps an identifier string in a `value`
field. -/
structure Uuid where
  value : String
  deriving DecidableEq

/-- Modelled from the spec: `Uuid.serialize`, the persisted form of the
opaque identifier — its value. -/
def Uuid.serialize (u : Uuid) : JsValue := JsValue.str u.value

/-- Modelled from the spec: `Uuid.deserialize` restores the identifier
from its persisted value; a non-string runtime value yields no identifier. -/
def Uuid.deserialize : JsValue → Option Uuid
  | JsValue.str s => some ⟨s⟩
  | _ => none

/-- `Subscription` (src/unnamed/part_002): the normalized, persisted
record {deviceId, subscriptionToken, optedOut}. -/
structure Subscription where
  deviceId : Uuid
  subscriptionToken : String
  optedOut : Bool
  deriving DecidableEq

/-- The runtime field values of the object `Subscription.deserialize`
builds: each field holds whatever JavaScript value the bundle lookup
produced (possibly `undefined`). -/
structure DeserializedSubscription where
  deviceId : Option Uuid
  subscriptionToken : JsValue
  optedOut : JsValue
  deriving DecidableEq

/-- `Subscription.serialize` (src/unnamed/part_002 lines 19-25): writes
keys `safariDeviceId`, `subscriptionToken`, `optedOut`. -/
def Subscription.serialize (s : Subscription) : JsBundle :=
  [("safariDeviceId", Uuid.serialize s.deviceId),
   ("subscriptionToken", JsValue.str s.subscriptionToken),
   ("optedOut", JsValue.boolean s.optedOut)]

/-- `Subscription.deserialize` (src/unnamed/part_002 lines 27-33): reads
keys `safariDeviceId`, `pushEndpoint`, `optedOut` — note it reads
`bundle.pushEndpoint` for the token, a key `serialize` never writes. -/
def Subscription.deserialize (bundle : JsBundle) : DeserializedSubscription :=
  { deviceId := Uuid.deserialize (jsGet bundle "safariDeviceId")
    subscriptionToken := jsGet bundle "pushEndpoint"
    optedOut := jsGet bundle "optedOut" }

/-! ## Errors (src/errors, referenced throughout) -/

/-- `InvalidStateReason` values used by the embedded code. -/
inductive InvalidStateReason where
  | serviceWorkerNotActivated
  | unsupportedEnvironment
  deriving DecidableEq

/-- `PushPermissionNotGrantedErrorReason` values used by the embedded code. -/
inductive PushPermissionNotGrantedErrorReason where
  | blocked
  | default
  deriving DecidableEq

/-- `SdkInitErrorKind` values used by the embedded code. -/
inductive SdkInitErrorKind where
  | missingSafariWebId
  deriving DecidableEq

/-- `SubscriptionErrorReason` values used by the embedded code. -/
inductive SubscriptionErrorReason where
  | invalidSafariSetup
  | dismissed
  deriving DecidableEq

/-- The exceptions the embedded code can throw. `typeError` is the
JavaScript runtime `TypeError` raised by dereferencing `undefined`. -/
inductive JsError where
  | invalidState (reason : InvalidStateReason)
  | invalidArgument
  | notImplemented
  | pushPermissionNotGranted (reason : PushPermissionNotGrantedErrorReason)
  | sdkInit (kind : SdkInitErrorKind)
  | subscription (reason : SubscriptionErrorReason)
  | typeError
  deriving DecidableEq

/-! ## ServiceWorkerManager (src/unnamed/part_007, lines 212-488) -/

/-- `ServiceWorkerActiveState` (src/unnamed/part_007 lines 225-246). -/
inductive ServiceWorkerActiveState where
  | workerA
  | workerB
  | thirdParty
  | none
  | bypassed
  deriving DecidableEq

/-- `ServiceWorkerManagerConfig` (src/unnamed/part_007 lines 248-263):
the A/B worker script paths and the registration scope. -/
structure ServiceWorkerManagerConfig where
  workerAPath : Path
  workerBPath : Path
  registrationOptionsScope : String
  deriving DecidableEq

/-- The platform's answer to `navigator.serviceWorker.getRegistration()`
together with the page's controller status, as consumed by
`getActiveState`: no registration, a registration with no active worker,
or an active worker with its script URL's pathname and whether
`navigator.serviceWorker.controller` is set. -/
inductive PageRegistration where
  | noRegistration
  | noActiveWorker
  | activeWorker (scriptURLPathname : String) (pageHasController : Bool)
  deriving DecidableEq

/-- `ServiceWorkerManager.getActiveState` (src/unnamed/part_007
lines 277-353): classify the current page's controlling registration.
The file-name comparison is plain string equality on
`Path.getFileName` results. -/
def ServiceWorkerManager.getActiveState (cfg : ServiceWorkerManagerConfig) :
    PageRegistration → Except JsError ServiceWorkerActiveState
  | PageRegistration.noRegistration => Except.ok ServiceWorkerActiveState.none
  | PageRegistration.noActiveWorker => Except.ok ServiceWorkerActiveState.thirdParty
  | PageRegistration.activeWorker scriptURLPathname pageHasController =>
    if !pageHasController then Except.ok ServiceWorkerActiveState.bypassed
    else
      match Path.ofString scriptURLPathname with
      | Option.none => Except.error JsError.invalidArgument
      | some workerScriptPath =>
        if workerScriptPath.getFileName = cfg.workerAPath.getFileName then
          Except.ok ServiceWorkerActiveState.workerA
        else if workerScriptPath.getFileName = cfg.workerBPath.getFileName then
          Except.ok ServiceWorkerActiveState.workerB
        else
          Except.ok ServiceWorkerActiveState.thirdParty

/-- `ServiceWorkerManager.getWorkerVersion` (src/unnamed/part_007
lines 355-368): fails unless the active state is Worker A or B, otherwise
resolves with the version number the worker reports over the messenger. -/
def ServiceWorkerManager.getWorkerVersion (state : ServiceWorkerActiveState)
    (reportedVersion : Nat) : Except JsError Nat :=
  if state ≠ ServiceWorkerActiveState.workerA ∧
      state ≠ ServiceWorkerActiveState.workerB then
    Except.error (JsError.invalidState InvalidStateReason.serviceWorkerNotActivated)
  else
    Except.ok reportedVersion

/-- `ServiceWorkerManager.shouldInstallWorker` (src/unnamed/part_007
lines 370-378). -/
def ServiceWorkerManager.shouldInstallWorker (state : ServiceWorkerActiveState) : Bool :=
  if state ≠ ServiceWorkerActiveState.workerA ∧
      state ≠ ServiceWorkerActiveState.workerB then
    true
  else
    false

/-- The outcome of `updateWorker`: the full path registered with the
platform, or `none` when no registration call was made. -/
structure UpdateResult where
  registeredPath : Option String
  deriving DecidableEq

/-- `ServiceWorkerManager.updateWorker` (src/unnamed/part_007
lines 401-435). `appIdQuery` stands for the
`encodeHashAsUriComponent({appId})` string (the util lives outside src/);
`reportedVersion` is the version the worker reports, `sdkVersion` is
`Environment.version()`. Note the call order: `getWorkerVersion` runs
before the not-A/B no-op branch is reached. -/
def ServiceWorkerManager.updateWorker (cfg : ServiceWorkerManagerConfig)
    (appIdQuery : String) (state : ServiceWorkerActiveState)
    (reportedVersion sdkVersion : Nat) : Except JsError UpdateResult :=
  match ServiceWorkerManager.getWorkerVersion state reportedVersion with
  | Except.error e => Except.error e
  | Except.ok workerVersion =>
    if state ≠ ServiceWorkerActiveState.workerA ∧
        state ≠ ServiceWorkerActiveState.workerB then
      -- "Do not update 3rd party workers" — logged, no registration call
      Except.ok ⟨Option.none⟩
    else if workerVersion ≠ sdkVersion then
      let p :=
        if state = ServiceWorkerActiveState.workerA then cfg.workerBPath
        else cfg.workerAPath
      Except.ok ⟨some (p.getPathWithoutFileName ++ "/" ++ p.getFileName ++ "?" ++ appIdQuery)⟩
    else
      Except.ok ⟨Option.none⟩

/-- The outcome of a successful `installWorker`: whether a third-party
registration was unregistered first, which configured slot path the
registration was drawn from, and the full path string passed to
`navigator.serviceWorker.register`. -/
structure InstallResult where
  unregisteredThirdParty : Bool
  slotPath : Path
  fullWorkerPath : String
  deriving DecidableEq

/-- `ServiceWorkerManager.installWorker` (src/unnamed/part_007
lines 444-487): unregister a third-party worker, pick the target slot
(Worker A, third-party or none → the B path; Worker B → the A path;
bypassed → `InvalidStateError`), and register
`${workerDirectory}/${workerFileName}${appIdQuery}`. -/
def ServiceWorkerManager.installWorker (cfg : ServiceWorkerManagerConfig)
    (appIdQuery : String) (state : ServiceWorkerActiveState) :
    Except JsError InstallResult :=
  let unregisteredThirdParty := state = ServiceWorkerActiveState.thirdParty
  if state = ServiceWorkerActiveState.workerA ∨
      state = ServiceWorkerActiveState.thirdParty ∨
      state = ServiceWorkerActiveState.none then
    Except.ok ⟨unregisteredThirdParty, cfg.workerBPath,
      cfg.workerBPath.getPathWithoutFileName ++ "/" ++ cfg.workerBPath.getFileName ++ appIdQuery⟩
  else if state = ServiceWorkerActiveState.workerB then
    Except.ok ⟨unregisteredThirdParty, cfg.workerAPath,
      cfg.workerAPath.getPathWithoutFileName ++ "/" ++ cfg.workerAPath.getFileName ++ appIdQuery⟩
  else
    -- state = bypassed: installing after a cache-bypassing reload cannot
    -- gain control of the page
    Except.error (JsError.invalidState InvalidStateReason.unsupportedEnvironment)

/-! ## WorkerMessenger (src/unnamed/part_001)

The file holds two revisions of the messenger. The current revision
(lines 410-635) carries `onPageMessageReceivedFromServiceWorker` /
`onWorkerMessageReceivedFromPage`; an older revision (lines 658-782,
embedded under the `Legacy` names) carries
`onMessageReceivedFromServiceWorker`. Callback invocation is modelled by
returning the `id`s of the invoked listener records in call order;
JavaScript reference equality on records is modelled by `id`. -/

/-- A reply-buffer listener record (`WorkerMessengerReplyBufferRecord`):
`id` models the JavaScript object identity of the record, used by
`deleteListenerRecord`'s `===` comparison. -/
structure ListenerRecord where
  id : Nat
  onceListenerOnly : Bool
  deriving DecidableEq

/-- The `replies` object of a `WorkerMessengerReplyBuffer`: command tag →
stored listener array. An entry whose value is `none` models a key set to
`null` by `deleteListenerRecords`; an absent key reads the same way. -/
abbrev ReplyBuffer := List (String × Option (List ListenerRecord))

/-- Raw property read `this.replies[command]`: the stored array, or
`none` for `null`/`undefined`. -/
def ReplyBuffer.rawLookup (buf : ReplyBuffer) (command : String) :
    Option (List ListenerRecord) :=
  match buf.find? (fun kv => kv.1 == command) with
  | some kv => kv.2
  | Option.none => Option.none

/-- Property write `this.replies[command] = v`: replace the entry if the
key exists, else append it. -/
def ReplyBuffer.set (buf : ReplyBuffer) (command : String)
    (v : Option (List ListenerRecord)) : ReplyBuffer :=
  match buf with
  | [] => [(command, v)]
  | kv :: rest =>
    if kv.1 == command then (command, v) :: rest
    else kv :: ReplyBuffer.set rest command v

namespace WorkerMessengerReplyBuffer

/-- `findListenersForMessage` (current revision, part_001 lines 431-433):
`this.replies[command] || []`. -/
def findListenersForMessage (buf : ReplyBuffer) (command : String) :
    List ListenerRecord :=
  (buf.rawLookup command).getD []

/-- `addListener` (current revision, part_001 lines 418-429): push onto
the existing array when one with entries exists, else start a fresh
one-element array. -/
def addListener (buf : ReplyBuffer) (command : String)
    (record : ListenerRecord) : ReplyBuffer :=
  if (findListenersForMessage buf command).length > 0 then
    buf.set command (some (findListenersForMessage buf command ++ [record]))
  else
    buf.set command (some [record])

/-- `deleteListenerRecords` (current revision, part_001 lines 435-437):
`this.replies[command] = null`. -/
def deleteListenerRecords (buf : ReplyBuffer) (command : String) : ReplyBuffer :=
  buf.set command Option.none

/-- `deleteListenerRecord` (current revision, part_001 lines 439-447):
splice out every record `===` the target, iterating from the last index
down to 0. Only reached by the handlers on commands whose entry holds an
array. -/
def deleteListenerRecord (buf : ReplyBuffer) (command : String)
    (targetRecord : ListenerRecord) : ReplyBuffer :=
  match buf.rawLookup command with
  | Option.none => buf
  | some listenersForCommand =>
    buf.set command (some (listenersForCommand.filter (fun r => r ≠ targetRecord)))

end WorkerMessengerReplyBuffer

namespace LegacyWorkerMessengerReplyBuffer

/-- `findListenersForMessage` (older revision, part_001 lines 679-681):
returns `this.replies[command]` with no `|| []` fallback. -/
def findListenersForMessage (buf : ReplyBuffer) (command : String) :
    Option (List ListenerRecord) :=
  buf.rawLookup command

/-- `addListener` (older revision, part_001 lines 666-677): the guard is
the truthiness of `findListenersForMessage` — any stored array (even
empty) is truthy. -/
def addListener (buf : ReplyBuffer) (command : String)
    (record : ListenerRecord) : ReplyBuffer :=
  match findListenersForMessage buf command with
  | some l => buf.set command (some (l ++ [record]))
  | Option.none => buf.set command (some [record])

/-- `deleteListenerRecord` (older revision, part_001 lines 687-695): the
splice loop runs `for (i = length - 1; i > 0; i--)`, so the record at
index 0 is never examined: matches are removed only from the tail. -/
def deleteListenerRecord (buf : ReplyBuffer) (command : String)
    (targetRecord : ListenerRecord) : ReplyBuffer :=
  match buf.rawLookup command with
  | Option.none => buf
  | some [] => buf.set command (some [])
  | some (h :: t) =>
    buf.set command (some (h :: t.filter (fun r => r ≠ targetRecord)))

end LegacyWorkerMessengerReplyBuffer

namespace WorkerMessenger

/-- `onPageMessageReceivedFromServiceWorker` (current revision, part_001
lines 558-581): gather the records for the command, queue every one for
invocation and the once-only ones for removal, delete the once-only ones
(iterating the removal list from its last index down to 0), then invoke
every gathered callback in registration order. Returns the updated buffer
and the ids of the invoked records in call order. -/
def onPageMessageReceivedFromServiceWorker (buf : ReplyBuffer)
    (command : String) : ReplyBuffer × List Nat :=
  let listenerRecords := WorkerMessengerReplyBuffer.findListenersForMessage buf command
  let listenersToRemove := listenerRecords.filter (fun r => r.onceListenerOnly)
  let listenersToCall := listenerRecords
  let buf' := listenersToRemove.reverse.foldl
    (fun b r => WorkerMessengerReplyBuffer.deleteListenerRecord b command r) buf
  (buf', listenersToCall.map (fun r => r.id))

/-- `onMessageReceivedFromServiceWorker` (older revision, part_001
lines 763-782): iterating `for..of` over the raw lookup throws a
`TypeError` when no entry exists; once-only records are routed to the
removal list *instead of* the call list; the removal loop runs
`for (i = length - 1; i > 0; i--)`, skipping index 0 of the removal
list. -/
def onMessageReceivedFromServiceWorker (buf : ReplyBuffer)
    (command : String) : Except JsError (ReplyBuffer × List Nat) :=
  match LegacyWorkerMessengerReplyBuffer.findListenersForMessage buf command with
  | Option.none => Except.error JsError.typeError
  | some listenerRecords =>
    let listenersToRemove := listenerRecords.filter (fun r => r.onceListenerOnly)
    let listenersToCall := listenerRecords.filter (fun r => !r.onceListenerOnly)
    let buf' := (listenersToRemove.drop 1).reverse.foldl
      (fun b r => LegacyWorkerMessengerReplyBuffer.deleteListenerRecord b command r) buf
    Except.ok (buf', listenersToCall.map (fun r => r.id))

/-- `on` (current revision, part_001 lines 583-585): register a durable
listener. (`on` is a reserved word in Lean, hence the suffix.) -/
def onDurable (buf : ReplyBuffer) (command : String) (id : Nat) : ReplyBuffer :=
  WorkerMessengerReplyBuffer.addListener buf command ⟨id, false⟩

/-- `once` (current revision, part_001 lines 587-589): register a
one-shot listener. -/
def once (buf : ReplyBuffer) (command : String) (id : Nat) : ReplyBuffer :=
  WorkerMessengerReplyBuffer.addListener buf command ⟨id, true⟩

end WorkerMessenger

/-! ## SubscriptionManager (src/src/managers/SubscriptionManager.ts) -/

/-- `WindowEnvironmentKind`: which of the SDK's execution contexts the
code runs in. The enum itself lives outside src/; these are the members
the embedded code branches on, plus `customIframe`/`unknown` for the
remaining contexts its callers mention. -/
inductive WindowEnvironmentKind where
  | host
  | serviceWorker
  | oneSignalProxyFrame
  | oneSignalSubscriptionModal
  | oneSignalSubscriptionPopup
  | customIframe
  | unknown
  deriving DecidableEq

/-- `NotificationPermission` as reported by the platform. -/
inductive NotificationPermission where
  | default
  | granted
  | denied
  deriving DecidableEq

/-- `pushManager.permissionState(...)` results, as matched inside the
worker subscribe path. -/
inductive PushPermissionState where
  | granted
  | denied
  | prompt
  deriving DecidableEq

/-- `DeliveryPlatformKind` members used by
`registerSubscriptionWithOneSignal`. -/
inductive DeliveryPlatformKind where
  | chromeLike
  | safari
  | firefox
  deriving DecidableEq

/-- `UnsubscriptionStrategy` members used by `unsubscribe`. -/
inductive UnsubscriptionStrategy where
  | destroySubscription
  | markUnsubscribed
  deriving DecidableEq

/-- An `applicationServerKey` value as it can appear in the options
passed to `pushManager.subscribe`: absent (`undefined`), the configured
VAPID public key passed as a raw string (the no-options resubscribe
branch), the `Uint8Array` produced by `urlBase64ToUint8Array` (recorded
by its normalized base64 input, the decode being injective), or opaque
key material inside options the platform itself exposed. -/
inductive ApplicationServerKey where
  | undefinedKey
  | rawString (s : String)
  | uint8ArrayFromBase64 (s : String)
  | platformOpaque (id : Nat)
  deriving DecidableEq

/-- The options object handed to `pushManager.subscribe`. -/
structure PushSubscribeOptions where
  userVisibleOnly : Bool
  applicationServerKey : ApplicationServerKey
  deriving DecidableEq

/-- An existing platform `PushSubscription` as consumed by the
negotiation: only its `options` property is read (Chrome 54+ exposes it;
older browsers yield `null`, modelled `none`). -/
structure ExistingPushSubscription where
  options : Option PushSubscribeOptions
  deriving DecidableEq

/-- The `PushSubscription` object the platform returns from
`pushManager.subscribe`: its endpoint, whether `getKey` exists, and the
`p256dh`/`auth` key bytes when retrievable (`none` models both an absent
key and the try/catch'd `getKey` failure on old browsers). -/
structure PlatformPushSubscription where
  endpoint : String
  getKeySupported : Bool
  p256dh : Option (List Nat)
  auth : Option (List Nat)
  deriving DecidableEq

/-- Standard (non-URL-safe) base64 text, recorded by the bytes it
encodes; `btoa` over a byte string is injective, so equality of these
values coincides with equality of the encoded text. -/
structure Base64 where
  bytes : List Nat
  deriving DecidableEq

/-- `RawPushSubscription` (src/src/models/RawPushSubscription.ts): all
fields start `undefined` (`none`); the FCM path fills the `w3c*` fields,
the Safari path fills only `safariDeviceToken`. -/
structure RawPushSubscription where
  w3cEndpoint : Option String := Option.none
  w3cP256dh : Option Base64 := Option.none
  w3cAuth : Option Base64 := Option.none
  safariDeviceToken : Option String := Option.none
  deriving DecidableEq

/-- `SubscriptionManagerConfig` (src/src/managers/SubscriptionManager.ts
lines 31-35); optional strings are `Option` since the source `AppConfig`
marks them optional. -/
structure SubscriptionManagerConfig where
  safariWebId : Option String
  appId : Uuid
  vapidPublicKey : Option String
  deriving DecidableEq

/-- One observable external side effect of the negotiation flow, in
program order. -/
inductive Effect where
  | workerUnregister
  | workerRegister (fullPath : String)
  | safariPermissionPrompt
  | platformSubscribe (options : PushSubscribeOptions)
  | platformUnsubscribe
  | apiCreateUser (platform : DeliveryPlatformKind)
  | apiUpdateUserSession (deviceId : String) (platform : DeliveryPlatformKind)
  | apiUpdatePlayer (appId deviceId : String)
  | dbPut (store key : String)
  | eventTrigger (name : String)
  deriving DecidableEq

/-- Everything the environment supplies to one run of the negotiation:
the execution context, permission states, browser family, the platform's
existing/new push subscriptions, the persisted device identity
(`Database.getSubscription().deviceId.value`, `none` for `undefined`),
and the identity the backend returns. -/
structure SubscribeWorld where
  env : WindowEnvironmentKind
  notificationPermission : NotificationPermission
  safariPush : Bool
  firefox : Bool
  safariResponseToken : Option String
  workerRegistrationActive : Bool
  workerPushPermission : PushPermissionState
  swState : ServiceWorkerActiveState
  existingPushSubscription : Option ExistingPushSubscription
  supportsVapid : Bool
  newPushSubscription : PlatformPushSubscription
  persistedDeviceId : Option String
  apiReturnedId : String
  deriving DecidableEq

/-- The base64 normalization inside `urlBase64ToUint8Array`
(SubscriptionManager.ts lines 355-368): pad with `=` to a multiple of 4,
then `-`→`+` and `_`→`/`. The final `atob` + byte extraction is injective
on its input and is carried by the `uint8ArrayFromBase64` tag. -/
def urlBase64Normalize (s : String) : String :=
  let padding := List.replicate ((4 - s.length % 4) % 4) '='
  ⟨(s.data ++ padding).map (fun c =>
    if c = '-' then '+' else if c = '_' then '/' else c)⟩

/-- `SubscriptionManager.urlBase64ToUint8Array`. -/
def SubscriptionManager.urlBase64ToUint8Array (base64String : String) :
    ApplicationServerKey :=
  ApplicationServerKey.uint8ArrayFromBase64 (urlBase64Normalize base64String)

/-- The `RawPushSubscription` assembled from the platform's new
subscription (SubscriptionManager.ts lines 320-352): the endpoint URL,
plus base64-encoded `p256dh`/`auth` bytes when `getKey` exists and
yields them. -/
def rawFromNewPushSubscription (s : PlatformPushSubscription) : RawPushSubscription :=
  { w3cEndpoint := some s.endpoint
    w3cP256dh := if s.getKeySupported then s.p256dh.map Base64.mk else Option.none
    w3cAuth := if s.getKeySupported then s.auth.map Base64.mk else Option.none
    safariDeviceToken := Option.none }

/-- `SubscriptionManager.subscribeFcmVapidOrLegacyKey`
(SubscriptionManager.ts lines 254-353). Branches exactly as the source:
existing subscription with exposed options → resubscribe with those very
options; existing without options → unsubscribe first, then subscribe
with the configured VAPID key as a raw string if VAPID is supported and a
key is configured, else with no key; no existing subscription → subscribe
with `urlBase64ToUint8Array(vapidPublicKey)` if VAPID is supported and a
key is configured, else with no key. -/
def SubscriptionManager.subscribeFcmVapidOrLegacyKey
    (cfg : SubscriptionManagerConfig) (w : SubscribeWorld) :
    List Effect × RawPushSubscription :=
  let options : PushSubscribeOptions :=
    { userVisibleOnly := true, applicationServerKey := ApplicationServerKey.undefinedKey }
  match w.existingPushSubscription with
  | some existingPushSubscription =>
    match existingPushSubscription.options with
    | some exposedOptions =>
      ([Effect.platformSubscribe exposedOptions],
       rawFromNewPushSubscription w.newPushSubscription)
    | Option.none =>
      if w.supportsVapid && jsTruthyOptStr cfg.vapidPublicKey then
        ([Effect.platformUnsubscribe,
          Effect.platformSubscribe
            { options with applicationServerKey :=
                ApplicationServerKey.rawString (cfg.vapidPublicKey.getD "") }],
         rawFromNewPushSubscription w.newPushSubscription)
      else
        ([Effect.platformUnsubscribe, Effect.platformSubscribe options],
         rawFromNewPushSubscription w.newPushSubscription)
  | Option.none =>
    if w.supportsVapid && jsTruthyOptStr cfg.vapidPublicKey then
      ([Effect.platformSubscribe
          { options with applicationServerKey :=
              SubscriptionManager.urlBase64ToUint8Array (cfg.vapidPublicKey.getD "") }],
       rawFromNewPushSubscription w.newPushSubscription)
    else
      ([Effect.platformSubscribe options],
       rawFromNewPushSubscription w.newPushSubscription)

/-- `isSafari() / Browser.firefox` → `DeliveryPlatformKind`
(SubscriptionManager.ts lines 122-128). -/
def deliveryPlatformOf (safariPush firefox : Bool) : DeliveryPlatformKind :=
  if safariPush then DeliveryPlatformKind.safari
  else if firefox then DeliveryPlatformKind.firefox
  else DeliveryPlatformKind.chromeLike

/-- `SubscriptionManager.registerSubscriptionWithOneSignal`
(SubscriptionManager.ts lines 117-156). Backend call: `updateUserSession`
with the persisted identity when one is already registered
(`!!deviceId.value`), else `createUser`; then the two persistence writes;
finally the returned `Subscription`'s token is
`pushSubscription.w3cEndpoint.toString()` — dereferencing an `undefined`
endpoint is the JavaScript `TypeError`, reached only after the backend
call and both writes. -/
def SubscriptionManager.registerSubscriptionWithOneSignal
    (cfg : SubscriptionManagerConfig) (w : SubscribeWorld)
    (pushSubscription : RawPushSubscription) :
    List Effect × Except JsError Subscription :=
  let deliveryPlatform := deliveryPlatformOf w.safariPush w.firefox
  let registeredEvent :=
    if w.env ≠ WindowEnvironmentKind.serviceWorker then
      [Effect.eventTrigger "registered"]
    else []
  let (apiEffects, newDeviceId) :=
    if jsTruthyOptStr w.persistedDeviceId then
      ([Effect.apiUpdateUserSession (w.persistedDeviceId.getD "") deliveryPlatform]
         ++ registeredEvent,
       w.apiReturnedId)
    else
      ([Effect.apiCreateUser deliveryPlatform] ++ registeredEvent, w.apiReturnedId)
  let dbEffects := [Effect.dbPut "Options" "optedOut", Effect.dbPut "Ids" "userId"]
  match pushSubscription.w3cEndpoint with
  | Option.none => (apiEffects ++ dbEffects, Except.error JsError.typeError)
  | some endpointUrl =>
    (apiEffects ++ dbEffects,
     Except.ok { deviceId := ⟨newDeviceId⟩, subscriptionToken := endpointUrl,
                 optedOut := false })

/-- The device token `subscribeSafariPromptPermission` resolves with
(SubscriptionManager.ts lines 163-180): the response's token lowercased
when truthy, else `null`. -/
def subscribeSafariPromptResult : Option String → Option String
  | some t => if t ≠ "" then some (jsToLowerCase t) else Option.none
  | Option.none => Option.none

/-- `SubscriptionManager.subscribeSafari` (SubscriptionManager.ts
lines 182-194): a missing `safariWebId` is a fatal setup error raised
before prompting; a prompt without a device token is an
invalid-Safari-setup failure; success stores only `safariDeviceToken` on
the fresh `RawPushSubscription`. -/
def SubscriptionManager.subscribeSafari (cfg : SubscriptionManagerConfig)
    (w : SubscribeWorld) : List Effect × Except JsError RawPushSubscription :=
  if !jsTruthyOptStr cfg.safariWebId then
    ([], Except.error (JsError.sdkInit SdkInitErrorKind.missingSafariWebId))
  else
    let deviceToken := subscribeSafariPromptResult w.safariResponseToken
    match deviceToken with
    | some t =>
      ([Effect.safariPermissionPrompt],
       Except.ok { safariDeviceToken := some t })
    | Option.none =>
      ([Effect.safariPermissionPrompt],
       Except.error (JsError.subscription SubscriptionErrorReason.invalidSafariSetup))

/-- `SubscriptionManager.subscribeFcmFromPage` (SubscriptionManager.ts
lines 196-213): install the worker when `shouldInstallWorker`, await
platform readiness, fire the prompt-displayed event outside the worker
context, then run the shared negotiation. `swCfg`/`appIdQuery` feed the
delegated `ServiceWorkerManager.installWorker`. -/
def SubscriptionManager.subscribeFcmFromPage (cfg : SubscriptionManagerConfig)
    (swCfg : ServiceWorkerManagerConfig) (appIdQuery : String)
    (w : SubscribeWorld) : List Effect × Except JsError RawPushSubscription :=
  let installStep : List Effect × Except JsError Unit :=
    if ServiceWorkerManager.shouldInstallWorker w.swState then
      match ServiceWorkerManager.installWorker swCfg appIdQuery w.swState with
      | Except.error e => ([], Except.error e)
      | Except.ok r =>
        ((if r.unregisteredThirdParty then [Effect.workerUnregister] else [])
           ++ [Effect.workerRegister r.fullWorkerPath],
         Except.ok ())
    else ([], Except.ok ())
  match installStep with
  | (effs, Except.error e) => (effs, Except.error e)
  | (effs, Except.ok _) =>
    let promptEvent :=
      if w.env ≠ WindowEnvironmentKind.serviceWorker then
        [Effect.eventTrigger "permissionPromptDisplayed"]
      else []
    let (negotiationEffects, raw) := SubscriptionManager.subscribeFcmVapidOrLegacyKey cfg w
    (effs ++ promptEvent ++ negotiationEffects, Except.ok raw)

/-- `SubscriptionManager.subscribeFcmFromWorker` (SubscriptionManager.ts
lines 215-242): inside the worker, fail unless the registration is
active; fail on `denied` (blocked) and on `prompt` (not yet granted);
otherwise run the shared negotiation. -/
def SubscriptionManager.subscribeFcmFromWorker (cfg : SubscriptionManagerConfig)
    (w : SubscribeWorld) : List Effect × Except JsError RawPushSubscription :=
  if !w.workerRegistrationActive then
    ([], Except.error (JsError.invalidState InvalidStateReason.serviceWorkerNotActivated))
  else if w.workerPushPermission = PushPermissionState.denied then
    ([], Except.error (JsError.pushPermissionNotGranted
          PushPermissionNotGrantedErrorReason.blocked))
  else if w.workerPushPermission = PushPermissionState.prompt then
    ([], Except.error (JsError.pushPermissionNotGranted
          PushPermissionNotGrantedErrorReason.default))
  else
    let (negotiationEffects, raw) := SubscriptionManager.subscribeFcmVapidOrLegacyKey cfg w
    (negotiationEffects, Except.ok raw)

/-- `SubscriptionManager.subscribe` (SubscriptionManager.ts lines 53-94).
From the worker: `subscribeFcmFromWorker`. From the host page or proxy
frame: the blocked-permission check runs first, then the Safari or
FCM path obtains a `RawPushSubscription`, which is registered with the
backend. Subscription popup/modal contexts (and anything else) are
unsupported environments. -/
def SubscriptionManager.subscribe (cfg : SubscriptionManagerConfig)
    (swCfg : ServiceWorkerManagerConfig) (appIdQuery : String)
    (w : SubscribeWorld) : List Effect × Except JsError Subscription :=
  if w.env = WindowEnvironmentKind.serviceWorker ∨
      w.env = WindowEnvironmentKind.host ∨
      w.env = WindowEnvironmentKind.oneSignalProxyFrame then
    let rawStep : List Effect × Except JsError RawPushSubscription :=
      if w.env = WindowEnvironmentKind.serviceWorker then
        SubscriptionManager.subscribeFcmFromWorker cfg w
      else if w.notificationPermission = NotificationPermission.denied then
        ([], Except.error (JsError.pushPermissionNotGranted
              PushPermissionNotGrantedErrorReason.blocked))
      else if w.safariPush then
        match SubscriptionManager.subscribeSafari cfg w with
        | (effs, Except.ok raw) =>
          (effs ++ [Effect.eventTrigger "notificationPermissionChanged"], Except.ok raw)
        | (effs, Except.error e) => (effs, Except.error e)
      else
        SubscriptionManager.subscribeFcmFromPage cfg swCfg appIdQuery w
    match rawStep with
    | (effs, Except.error e) => (effs, Except.error e)
    | (effs, Except.ok raw) =>
      let (registerEffects, result) :=
        SubscriptionManager.registerSubscriptionWithOneSignal cfg w raw
      (effs ++ registerEffects, result)
  else
    ([], Except.error (JsError.invalidState InvalidStateReason.unsupportedEnvironment))

/-- `SubscriptionManager.unsubscribe` (SubscriptionManager.ts
lines 96-115): `DestroySubscription` throws `NotImplementedError` before
any backend call or persisted-state change; `MarkUnsubscribed` is
implemented only inside the worker (mute the player, flip `optedOut`),
and throws `NotImplementedError` elsewhere. -/
def SubscriptionManager.unsubscribe (cfg : SubscriptionManagerConfig)
    (env : WindowEnvironmentKind) (persistedDeviceId : Option String)
    (strategy : UnsubscriptionStrategy) : List Effect × Except JsError Unit :=
  match strategy with
  | UnsubscriptionStrategy.destroySubscription =>
    ([], Except.error JsError.notImplemented)
  | UnsubscriptionStrategy.markUnsubscribed =>
    if env = WindowEnvironmentKind.serviceWorker then
      ([Effect.apiUpdatePlayer cfg.appId.value (persistedDeviceId.getD ""),
        Effect.dbPut "Options" "optedOut"],
       Except.ok ())
    else
      ([], Except.error JsError.notImplemented)

/-- Decidable equality for `Except` results, so concrete runs of the
embedded operations can be checked by `decide`. -/
instance instDecidableEqExceptLocal {ε α : Type} [DecidableEq ε] [DecidableEq α] :
    DecidableEq (Except ε α) := fun a b =>
  match a, b with
  | Except.error e, Except.error f =>
    if h : e = f then isTrue (by rw [h]) else isFalse (fun hh => h (Except.error.inj hh))
  | Except.error _, Except.ok _ => isFalse (fun hh => Except.noConfusion hh)
  | Except.ok _, Except.error _ => isFalse (fun hh => Except.noConfusion hh)
  | Except.ok x, Except.ok y =>
    if h : x = y then isTrue (by rw [h]) else isFalse (fun hh => h (Except.ok.inj hh))

/-! ## Concrete instances used by counterexample and witness theorems -/

/-- The default A/B worker configuration built by `Context`
(src/src/models/Context.ts): `/OneSignalSDKWorker.js` and
`/OneSignalSDKUpdaterWorker.js` at scope `/`. -/
def cfgAB : ServiceWorkerManagerConfig :=
  ⟨⟨"/OneSignalSDKWorker.js"⟩, ⟨"/OneSignalSDKUpdaterWorker.js"⟩, "/"⟩

/-- A concrete persisted subscription record. -/
def subscriptionExample : Subscription :=
  ⟨⟨"c3b6967a-4f3b-4ad4-9211-20d1e315a145"⟩,
   "https://fcm.googleapis.com/fcm/send/c8rqdAkW3zs", false⟩

/-- The result `installWorker` produces for the default configuration
when Worker A is active and the query string is empty. -/
def installResultExample : InstallResult :=
  ⟨false, ⟨"/OneSignalSDKUpdaterWorker.js"⟩, "/OneSignalSDKUpdaterWorker.js"⟩

/-- A concrete subscription-manager configuration. -/
def subscriptionCfgExample : SubscriptionManagerConfig :=
  ⟨some "web.onesignal.auto.example", ⟨"e4c6f316-9a33-4a96-9bd6-1b4bd9ed7a5e"⟩,
   some "BO9c3ZDmFCqsTvXZGYHpcUl4xrXSm9V0mPoLGZc51zUfGeXa"⟩

/-- A concrete host-page world whose notification permission is denied. -/
def subscribeWorldDenied : SubscribeWorld :=
  { env := WindowEnvironmentKind.host
    notificationPermission := NotificationPermission.denied
    safariPush := false
    firefox := false
    safariResponseToken := Option.none
    workerRegistrationActive := true
    workerPushPermission := PushPermissionState.granted
    swState := ServiceWorkerActiveState.none
    existingPushSubscription := Option.none
    supportsVapid := true
    newPushSubscription := ⟨"https://fcm.googleapis.com/fcm/send/abc", true, some [1, 2], some [3]⟩
    persistedDeviceId := Option.none
    apiReturnedId := "e0af7f29-4d29-4b30-8f0b-4d2f1b9cdd21" }

/-- Options a platform-stored push subscription exposes (opaque key
material as Chrome 54+ reports it). -/
def platformOptionsExample : PushSubscribeOptions :=
  ⟨true, ApplicationServerKey.platformOpaque 7⟩

/-- A concrete world for the resubscribe scenario: Worker A active,
existing subscription exposing its options, device identity persisted. -/
def subscribeWorldResubscribe : SubscribeWorld :=
  { subscribeWorldDenied with
    notificationPermission := NotificationPermission.granted
    swState := ServiceWorkerActiveState.workerA
    existingPushSubscription := some ⟨some platformOptionsExample⟩
    persistedDeviceId := some "11111111-2222-3333-4444-555555555555" }

/-- A concrete world with no existing subscription on a platform without
VAPID support. -/
def subscribeWorldNoVapid : SubscribeWorld :=
  { subscribeWorldDenied with
    notificationPermission := NotificationPermission.granted
    supportsVapid := false }

/-- A concrete world whose Safari prompt succeeds with a device token. -/
def subscribeWorldSafari : SubscribeWorld :=
  { subscribeWorldDenied with
    notificationPermission := NotificationPermission.granted
    safariPush := true
    safariResponseToken := some "A1B2C3D4E5F6" }

/-! ## Claim theorems -/

/-- C1: the spec claims a `Subscription` serialized then deserialized
yields an equal device identity, token, and opted-out flag. At a concrete
subscription the device identity and opted-out flag do round-trip, but
the token comes back as `undefined` — `deserialize` reads the key
`pushEndpoint`, which `serialize` never writes — so the round-trip fails
on the `subscriptionToken` field. -/
theorem C1_serialize_roundtrip_loses_token :
    (Subscription.deserialize (Subscription.serialize subscriptionExample)).deviceId =
      some subscriptionExample.deviceId ∧
    (Subscription.deserialize (Subscription.serialize subscriptionExample)).optedOut =
      JsValue.boolean subscriptionExample.optedOut ∧
    (Subscription.deserialize (Subscription.serialize subscriptionExample)).subscriptionToken =
      JsValue.undefined ∧
    (Subscription.deserialize (Subscription.serialize subscriptionExample)).subscriptionToken ≠
      JsValue.str subscriptionExample.subscriptionToken := by
  decide

/-- C3: the spec claims the message handler invokes every registered
listener exactly once in registration order, removes `once()` listeners
afterwards, and silently ignores commands with no listeners. The older
handler `onMessageReceivedFromServiceWorker` (part_001 lines 763-782)
violates all three at concrete inputs: a single `once()` listener for
`GetWorkerVersion` is never invoked and never removed, and an empty
buffer raises a `TypeError`. The current page handler
`onPageMessageReceivedFromServiceWorker` behaves as claimed on the same
input: it invokes the listener and removes its record. -/
theorem C3_legacy_handler_drops_once_listeners :
    WorkerMessenger.onMessageReceivedFromServiceWorker
        (LegacyWorkerMessengerReplyBuffer.addListener [] "GetWorkerVersion" ⟨0, true⟩)
        "GetWorkerVersion" =
      Except.ok ([("GetWorkerVersion", some [⟨0, true⟩])], []) ∧
    WorkerMessenger.onMessageReceivedFromServiceWorker [] "GetWorkerVersion" =
      Except.error JsError.typeError ∧
    WorkerMessenger.onPageMessageReceivedFromServiceWorker
        (WorkerMessenger.once [] "GetWorkerVersion" 0) "GetWorkerVersion" =
      ([("GetWorkerVersion", some [])], [0]) :=
  ⟨rfl, rfl, rfl⟩

/-- C4: the spec claims `updateWorker()` is a logged no-op, raising no
error, when the active state is not Worker A/B. In the source,
`getWorkerVersion()` is awaited before that branch and itself throws
`InvalidStateError` for any non-A/B state, so the no-op branch is
unreachable: with a third-party worker active, `updateWorker` raises the
error instead of returning quietly. The version-match half of the claim
does hold: with Worker A active and the reported version equal to the
SDK version, no registration call is made. -/
theorem C4_updateWorker_throws_on_non_ab_state :
    ServiceWorkerManager.updateWorker cfgAB "appId=a" ServiceWorkerActiveState.thirdParty 1 1 =
      Except.error (JsError.invalidState InvalidStateReason.serviceWorkerNotActivated) ∧
    ServiceWorkerManager.updateWorker cfgAB "appId=a" ServiceWorkerActiveState.none 1 2 =
      Except.error (JsError.invalidState InvalidStateReason.serviceWorkerNotActivated) ∧
    ServiceWorkerManager.updateWorker cfgAB "appId=a" ServiceWorkerActiveState.workerA 3 3 =
      Except.ok ⟨Option.none⟩ := by
  decide

/-- C5: the spec claims `getActiveState()` compares the active worker's
script file name case-insensitively (and path-normalized) against the
configured A/B names. The comparison does strip directories, but it is
plain string equality on file names: a registration whose script differs
from the configured `/OneSignalSDKWorker.js` only in the extension's case
is classified `ThirdParty`, not `WorkerA` — even though `Path`'s own doc
comment promises "Paths are downcased". -/
theorem C5_getActiveState_is_case_sensitive :
    ServiceWorkerManager.getActiveState cfgAB
        (PageRegistration.activeWorker "/OneSignalSDKWorker.JS" true) =
      Except.ok ServiceWorkerActiveState.thirdParty ∧
    ServiceWorkerManager.getActiveState cfgAB
        (PageRegistration.activeWorker "/push/onesignal/OneSignalSDKWorker.js" true) =
      Except.ok ServiceWorkerActiveState.workerA ∧
    ServiceWorkerManager.getActiveState cfgAB
        (PageRegistration.activeWorker "/sw.js" true) =
      Except.ok ServiceWorkerActiveState.thirdParty := by
  decide

/-- C2: for every configured A/B path pair and every state reachable at
the start of `installWorker()`, a successful installation never targets
the currently active slot: Worker A active → the B path is registered,
Worker B active → the A path, and `None`/`ThirdParty` → the fixed default
B path; whenever the two configured paths differ, the registered path is
never the active one. -/
theorem C2_installWorker_targets_opposite_slot
    (cfg : ServiceWorkerManagerConfig) (appIdQuery : String)
    (state : ServiceWorkerActiveState) (r : InstallResult)
    (h : ServiceWorkerManager.installWorker cfg appIdQuery state = Except.ok r) :
    (state = ServiceWorkerActiveState.workerA → r.slotPath = cfg.workerBPath) ∧
    (state = ServiceWorkerActiveState.workerB → r.slotPath = cfg.workerAPath) ∧
    (state = ServiceWorkerActiveState.none ∨ state = ServiceWorkerActiveState.thirdParty →
      r.slotPath = cfg.workerBPath) ∧
    (cfg.workerAPath ≠ cfg.workerBPath →
      (state = ServiceWorkerActiveState.workerA → r.slotPath ≠ cfg.workerAPath) ∧
      (state = ServiceWorkerActiveState.workerB → r.slotPath ≠ cfg.workerBPath)) := by
  cases state with
  | workerA =>
    have hr : r = ⟨false, cfg.workerBPath,
        cfg.workerBPath.getPathWithoutFileName ++ "/" ++
          cfg.workerBPath.getFileName ++ appIdQuery⟩ := (Except.ok.inj h).symm
    subst hr
    exact ⟨fun _ => rfl, fun h' => by simp at h', fun _ => rfl,
      fun hne => ⟨fun _ => fun he => hne he.symm, fun h' => by simp at h'⟩⟩
  | workerB =>
    have hr : r = ⟨false, cfg.workerAPath,
        cfg.workerAPath.getPathWithoutFileName ++ "/" ++
          cfg.workerAPath.getFileName ++ appIdQuery⟩ := (Except.ok.inj h).symm
    subst hr
    exact ⟨fun h' => by simp at h', fun _ => rfl,
      fun h' => by rcases h' with h' | h' <;> simp at h',
      fun hne => ⟨fun h' => by simp at h', fun _ => hne⟩⟩
  | thirdParty =>
    have hr : r = ⟨true, cfg.workerBPath,
        cfg.workerBPath.getPathWithoutFileName ++ "/" ++
          cfg.workerBPath.getFileName ++ appIdQuery⟩ := (Except.ok.inj h).symm
    subst hr
    exact ⟨fun h' => by simp at h', fun h' => by simp at h', fun _ => rfl,
      fun hne => ⟨fun h' => by simp at h', fun h' => by simp at h'⟩⟩
  | none =>
    have hr : r = ⟨false, cfg.workerBPath,
        cfg.workerBPath.getPathWithoutFileName ++ "/" ++
          cfg.workerBPath.getFileName ++ appIdQuery⟩ := (Except.ok.inj h).symm
    subst hr
    exact ⟨fun h' => by simp at h', fun h' => by simp at h', fun _ => rfl,
      fun hne => ⟨fun h' => by simp at h', fun h' => by simp at h'⟩⟩
  | bypassed => exact Except.noConfusion h

/-- C2 witness: with the default configuration and Worker A active,
`installWorker` succeeds and registers taking the B path. -/
theorem C2_installWorker_targets_opposite_slot_witness :
    ServiceWorkerManager.installWorker cfgAB "" ServiceWorkerActiveState.workerA =
      Except.ok installResultExample ∧
    installResultExample.slotPath = cfgAB.workerBPath :=
  ⟨by decide,
   (C2_installWorker_targets_opposite_slot cfgAB "" ServiceWorkerActiveState.workerA
      installResultExample (by decide)).1 rfl⟩

/-- C7: from the page context (host page or proxy frame), when the
current notification permission is denied, `subscribe()` fails with the
blocked-permission error and its effect trace is empty — no worker
installation, no platform prompt, no platform subscribe call, no backend
call and no persistence write happen before the failure. -/
theorem C7_subscribe_fails_fast_when_permission_denied
    (cfg : SubscriptionManagerConfig) (swCfg : ServiceWorkerManagerConfig)
    (appIdQuery : String) (w : SubscribeWorld)
    (henv : w.env = WindowEnvironmentKind.host ∨
      w.env = WindowEnvironmentKind.oneSignalProxyFrame)
    (hperm : w.notificationPermission = NotificationPermission.denied) :
    SubscriptionManager.subscribe cfg swCfg appIdQuery w =
      ([], Except.error (JsError.pushPermissionNotGranted
        PushPermissionNotGrantedErrorReason.blocked)) := by
  rcases henv with h | h <;>
    simp [SubscriptionManager.subscribe, h, hperm]

/-- C7 witness: a concrete host-page world with denied permission. -/
theorem C7_subscribe_fails_fast_when_permission_denied_witness :
    subscribeWorldDenied.env = WindowEnvironmentKind.host ∧
    subscribeWorldDenied.notificationPermission = NotificationPermission.denied ∧
    SubscriptionManager.subscribe subscriptionCfgExample cfgAB "" subscribeWorldDenied =
      ([], Except.error (JsError.pushPermissionNotGranted
        PushPermissionNotGrantedErrorReason.blocked)) :=
  ⟨rfl, rfl,
   C7_subscribe_fails_fast_when_permission_denied subscriptionCfgExample cfgAB ""
     subscribeWorldDenied (Or.inl rfl) rfl⟩

/-- C9: `unsubscribe(DestroySubscription)` raises `NotImplementedError`
in every execution context and with any persisted identity, with an empty
effect trace: no backend call and no persisted-state change happen before
the failure, and it is never a silent no-op. -/
theorem C9_unsubscribe_destroy_not_implemented
    (cfg : SubscriptionManagerConfig) (env : WindowEnvironmentKind)
    (persistedDeviceId : Option String) :
    SubscriptionManager.unsubscribe cfg env persistedDeviceId
      UnsubscriptionStrategy.destroySubscription =
        ([], Except.error JsError.notImplemented) := rfl

/-- C6: when the platform reports an existing push subscription that
exposes its original options, the negotiation resubscribes by passing
exactly those options to the platform subscribe call — no configured
VAPID key material is substituted and no unsubscribe call is made — and
afterwards, with a device identity already persisted, registration calls
`updateUserSession` with that identity and never `createUser`. -/
theorem C6_resubscribe_reuses_exposed_options
    (cfg : SubscriptionManagerConfig) (w : SubscribeWorld)
    (ex : ExistingPushSubscription) (exposedOptions : PushSubscribeOptions)
    (hex : w.existingPushSubscription = some ex)
    (hopts : ex.options = some exposedOptions)
    (hpid : jsTruthyOptStr w.persistedDeviceId = true) :
    SubscriptionManager.subscribeFcmVapidOrLegacyKey cfg w =
      ([Effect.platformSubscribe exposedOptions],
       rawFromNewPushSubscription w.newPushSubscription) ∧
    Effect.platformUnsubscribe ∉
      (SubscriptionManager.subscribeFcmVapidOrLegacyKey cfg w).1 ∧
    (∀ raw : RawPushSubscription,
      Effect.apiUpdateUserSession (w.persistedDeviceId.getD "")
          (deliveryPlatformOf w.safariPush w.firefox) ∈
        (SubscriptionManager.registerSubscriptionWithOneSignal cfg w raw).1 ∧
      ∀ dp, Effect.apiCreateUser dp ∉
        (SubscriptionManager.registerSubscriptionWithOneSignal cfg w raw).1) := by
  have h1 : SubscriptionManager.subscribeFcmVapidOrLegacyKey cfg w =
      ([Effect.platformSubscribe exposedOptions],
       rawFromNewPushSubscription w.newPushSubscription) := by
    simp [SubscriptionManager.subscribeFcmVapidOrLegacyKey, hex, hopts]
  refine ⟨h1, by rw [h1]; simp, ?_⟩
  intro raw
  constructor
  · cases hre : raw.w3cEndpoint <;>
      by_cases henv : w.env = WindowEnvironmentKind.serviceWorker <;>
      simp [SubscriptionManager.registerSubscriptionWithOneSignal, hpid, hre, henv]
  · intro dp
    cases hre : raw.w3cEndpoint <;>
      by_cases henv : w.env = WindowEnvironmentKind.serviceWorker <;>
      simp [SubscriptionManager.registerSubscriptionWithOneSignal, hpid, hre, henv]

/-- C6 witness: the resubscribe scenario at concrete values. -/
theorem C6_resubscribe_reuses_exposed_options_witness :
    subscribeWorldResubscribe.existingPushSubscription =
      some ⟨some platformOptionsExample⟩ ∧
    jsTruthyOptStr subscribeWorldResubscribe.persistedDeviceId = true ∧
    SubscriptionManager.subscribeFcmVapidOrLegacyKey subscriptionCfgExample
        subscribeWorldResubscribe =
      ([Effect.platformSubscribe platformOptionsExample],
       rawFromNewPushSubscription subscribeWorldResubscribe.newPushSubscription) :=
  ⟨rfl, rfl,
   (C6_resubscribe_reuses_exposed_options subscriptionCfgExample subscribeWorldResubscribe
      ⟨some platformOptionsExample⟩ platformOptionsExample rfl rfl rfl).1⟩

/-- C8: with no existing platform subscription and a platform that does
not support VAPID, the fresh subscribe call uses the legacy mechanism —
its options carry no `applicationServerKey` — for every configured VAPID
key value; and on the fresh path a key is only ever passed when both
VAPID support and a truthy configured key are present. -/
theorem C8_fresh_subscribe_legacy_when_vapid_unsupported
    (cfg : SubscriptionManagerConfig) (w : SubscribeWorld)
    (hex : w.existingPushSubscription = Option.none)
    (hv : w.supportsVapid = false) :
    SubscriptionManager.subscribeFcmVapidOrLegacyKey cfg w =
      ([Effect.platformSubscribe ⟨true, ApplicationServerKey.undefinedKey⟩],
       rawFromNewPushSubscription w.newPushSubscription) ∧
    (∀ (cfg₂ : SubscriptionManagerConfig) (w₂ : SubscribeWorld),
      w₂.existingPushSubscription = Option.none →
      ∀ opts, Effect.platformSubscribe opts ∈
          (SubscriptionManager.subscribeFcmVapidOrLegacyKey cfg₂ w₂).1 →
        opts.applicationServerKey ≠ ApplicationServerKey.undefinedKey →
        w₂.supportsVapid = true ∧ jsTruthyOptStr cfg₂.vapidPublicKey = true) := by
  constructor
  · simp [SubscriptionManager.subscribeFcmVapidOrLegacyKey, hex, hv]
  · intro cfg₂ w₂ hex₂ opts hmem hne
    cases hv₂ : (w₂.supportsVapid && jsTruthyOptStr cfg₂.vapidPublicKey) with
    | true => simpa [Bool.and_eq_true] using hv₂
    | false =>
      simp [SubscriptionManager.subscribeFcmVapidOrLegacyKey, hex₂, hv₂] at hmem
      exact absurd (by rw [hmem]) hne

/-- C8 witness: the fresh-subscribe scenario without VAPID support at
concrete values; the configured VAPID key is present yet unused. -/
theorem C8_fresh_subscribe_legacy_when_vapid_unsupported_witness :
    subscribeWorldNoVapid.existingPushSubscription = Option.none ∧
    subscribeWorldNoVapid.supportsVapid = false ∧
    SubscriptionManager.subscribeFcmVapidOrLegacyKey subscriptionCfgExample
        subscribeWorldNoVapid =
      ([Effect.platformSubscribe ⟨true, ApplicationServerKey.undefinedKey⟩],
       rawFromNewPushSubscription subscribeWorldNoVapid.newPushSubscription) :=
  ⟨rfl, rfl,
   (C8_fresh_subscribe_legacy_when_vapid_unsupported subscriptionCfgExample
      subscribeWorldNoVapid rfl rfl).1⟩

/-- C10: every `RawPushSubscription` the Safari path produces carries no
`w3cEndpoint` yet does carry the device token; the token derivation in
`registerSubscriptionWithOneSignal` reads `w3cEndpoint` unconditionally —
on a Safari-produced value it dereferences the absent endpoint (the
JavaScript `TypeError`), the `safariDeviceToken` field never influences
the result, and whenever an endpoint is present the subscription token is
exactly that endpoint. -/
theorem C10_safari_token_never_becomes_subscription_token
    (cfg : SubscriptionManagerConfig) (w : SubscribeWorld)
    (effs : List Effect) (raw : RawPushSubscription)
    (h : SubscriptionManager.subscribeSafari cfg w = (effs, Except.ok raw)) :
    raw.w3cEndpoint = Option.none ∧
    raw.safariDeviceToken ≠ Option.none ∧
    (∀ (cfg₂ : SubscriptionManagerConfig) (w₂ : SubscribeWorld),
      (SubscriptionManager.registerSubscriptionWithOneSignal cfg₂ w₂ raw).2 =
        Except.error JsError.typeError) ∧
    (∀ (cfg₂ : SubscriptionManagerConfig) (w₂ : SubscribeWorld)
        (r : RawPushSubscription) (t₁ t₂ : Option String),
      SubscriptionManager.registerSubscriptionWithOneSignal cfg₂ w₂
          { r with safariDeviceToken := t₁ } =
        SubscriptionManager.registerSubscriptionWithOneSignal cfg₂ w₂
          { r with safariDeviceToken := t₂ }) ∧
    (∀ (cfg₂ : SubscriptionManagerConfig) (w₂ : SubscribeWorld)
        (r : RawPushSubscription) (e : String) (effs₂ : List Effect) (sub : Subscription),
      r.w3cEndpoint = some e →
      SubscriptionManager.registerSubscriptionWithOneSignal cfg₂ w₂ r =
        (effs₂, Except.ok sub) →
      sub.subscriptionToken = e) := by
  have hraw : raw.w3cEndpoint = Option.none ∧ raw.safariDeviceToken ≠ Option.none := by
    cases htr : jsTruthyOptStr cfg.safariWebId with
    | false => simp [SubscriptionManager.subscribeSafari, htr] at h
    | true =>
      cases hdt : subscribeSafariPromptResult w.safariResponseToken with
      | none => simp [SubscriptionManager.subscribeSafari, htr, hdt] at h
      | some t =>
        simp [SubscriptionManager.subscribeSafari, htr, hdt] at h
        obtain ⟨-, hr⟩ := h
        simp [← hr]
  refine ⟨hraw.1, hraw.2, ?_, ?_, ?_⟩
  · intro cfg₂ w₂
    cases hp : jsTruthyOptStr w₂.persistedDeviceId <;>
      simp [SubscriptionManager.registerSubscriptionWithOneSignal, hp, hraw.1]
  · intro cfg₂ w₂ r t₁ t₂
    rfl
  · intro cfg₂ w₂ r e effs₂ sub hre hreg
    cases hp : jsTruthyOptStr w₂.persistedDeviceId <;>
      simp [SubscriptionManager.registerSubscriptionWithOneSignal, hp, hre] at hreg <;>
      obtain ⟨-, hsub⟩ := hreg <;>
      simp [← hsub]

/-- C10 witness: the Safari path at concrete values produces a raw
subscription with no endpoint. -/
theorem C10_safari_token_never_becomes_subscription_token_witness :
    SubscriptionManager.subscribeSafari subscriptionCfgExample subscribeWorldSafari =
      ([Effect.safariPermissionPrompt],
       Except.ok { safariDeviceToken := some "a1b2c3d4e5f6" }) ∧
    RawPushSubscription.w3cEndpoint { safariDeviceToken := some "a1b2c3d4e5f6" } =
      Option.none :=
  ⟨by decide,
   (C10_safari_token_never_becomes_subscription_token subscriptionCfgExample
      subscribeWorldSafari [Effect.safariPermissionPrompt]
      { safariDeviceToken := some "a1b2c3d4e5f6" } (by decide)).1⟩

end OneSignalSDK
